import Mathlib

/-!
Shallow embedding of the OpenClaw-Vision single-page application
(`src/App.tsx`).  The component's mutable refs and React state hooks are
collected into one explicit state record `AppState`; each event callback of
the source (`onmessage`, `onerror`, `onclose`, `stopAll`, the `startSession`
success/failure paths) becomes a pure state-transition function.  Audio-clock
readings and wall-clock time are rationals; `setTimeout` registrations are
kept as a list of absolute fire times, discharged by an explicit
`advanceTo` time step.
-/

namespace VisionClaw

/-- Session lifecycle enumeration, from `src/types` (`AppStatus`). -/
inductive AppStatus where
  | IDLE
  | CONNECTING
  | ACTIVE
  | ERROR
deriving DecidableEq

/-- Speaker role of a transcript entry, from `src/types` (`TranscriptionEntry.role`). -/
inductive Role where
  | user
  | assistant
deriving DecidableEq

/-- One entry of the visible transcript history, from `src/types` (`TranscriptionEntry`). -/
structure TranscriptionEntry where
  role : Role
  text : String
deriving DecidableEq

/-- An `AudioBufferSourceNode` scheduled for playback: its identity, the time
passed to `start`, and the buffer duration. -/
structure SourceNode where
  id : Nat
  start : ℚ
  duration : ℚ
deriving DecidableEq

/-- A decoded inbound audio chunk; only its duration matters to scheduling. -/
structure AudioChunk where
  duration : ℚ
deriving DecidableEq

/-- An inbound server message (`message.serverContent` fields inspected by
`onmessage` in `src/App.tsx`). -/
structure ServerMessage where
  inputTranscription : Option String
  outputTranscription : Option String
  turnComplete : Bool
  audioData : Option AudioChunk
  interrupted : Bool
deriving DecidableEq

/-- The component state: React state hooks (`status`, `transcriptions`,
`error`, `safetyAlert`) together with the mutable refs of `src/App.tsx`
(`frameIntervalRef`, `sessionRef`, `nextStartTimeRef`, `sourcesRef`,
`currentInputTransRef`, `currentOutputTransRef`).  `stopped` records the ids
on which `stop()` has been called, `nextSourceId` allocates node identities,
`alertTimers` holds pending `setTimeout(() => setSafetyAlert(false), 3000)`
fire times, and `now` is the current time in milliseconds. -/
@[ext] structure AppState where
  status : AppStatus
  transcriptions : List TranscriptionEntry
  error : Option String
  safetyAlert : Bool
  frameInterval : Option Nat
  session : Bool
  nextStartTime : ℚ
  sources : List SourceNode
  stopped : List Nat
  nextSourceId : Nat
  currentInputTrans : String
  currentOutputTrans : String
  alertTimers : List ℚ
  now : ℚ
deriving DecidableEq

/-- The initial component state (the `useState` / `useRef` initial values). -/
def initState : AppState :=
  { status := AppStatus.IDLE
    transcriptions := []
    error := none
    safetyAlert := false
    frameInterval := none
    session := false
    nextStartTime := 0
    sources := []
    stopped := []
    nextSourceId := 0
    currentInputTrans := ""
    currentOutputTrans := ""
    alertTimers := []
    now := 0 }

/-- JavaScript `s.includes(pat)`: `pat` occurs as a substring of `s`. -/
def strIncludes (s pat : String) : Bool :=
  decide (pat.data <:+: s.data)

/-- JavaScript `s.toLowerCase()`, character by character. -/
def strToLower (s : String) : String :=
  ⟨s.data.map Char.toLower⟩

/-- The fixed danger-keyword list of `onmessage` (`dangerKeywords`). -/
def dangerKeywords : List String :=
  ["危险", "注意", "警告", "停", "danger", "warning", "stop", "caution", "紧急警告"]

/-- `dangerKeywords.some(k => text.toLowerCase().includes(k))`. -/
def matchesDanger (text : String) : Bool :=
  dangerKeywords.any (fun k => strIncludes (strToLower text) k)

/-- `onmessage` step 1: accumulate an input-transcription fragment. -/
def handleInputTrans (s : AppState) (m : ServerMessage) : AppState :=
  match m.inputTranscription with
  | some t => { s with currentInputTrans := s.currentInputTrans ++ t }
  | none => s

/-- `onmessage` step 2: accumulate an output-transcription fragment and, on a
keyword match in the fragment, raise the safety alert and register a
3000 ms timeout clearing it. -/
def handleOutputTrans (s : AppState) (m : ServerMessage) : AppState :=
  match m.outputTranscription with
  | some text =>
    let s1 := { s with currentOutputTrans := s.currentOutputTrans ++ text }
    if matchesDanger text then
      { s1 with safetyAlert := true, alertTimers := s1.alertTimers ++ [s1.now + 3000] }
    else s1
  | none => s

/-- JavaScript `Array.prototype.slice(-10)`: the last (at most) ten elements. -/
def sliceLast10 {α : Type} (l : List α) : List α :=
  l.drop (l.length - 10)

/-- `onmessage` step 3: on `turnComplete`, append the accumulated user and
assistant transcripts as a pair, cap the history with `slice(-10)`, and
clear both accumulators. -/
def handleTurnComplete (s : AppState) (m : ServerMessage) : AppState :=
  if m.turnComplete then
    { s with
      transcriptions :=
        sliceLast10 (s.transcriptions ++
          [⟨Role.user, s.currentInputTrans⟩, ⟨Role.assistant, s.currentOutputTrans⟩])
      currentInputTrans := ""
      currentOutputTrans := "" }
  else s

/-- `onmessage` step 4: on inline audio data, set the cursor to
`max(nextStartTime, ctx.currentTime)`, start a new source node there, and
advance the cursor by the buffer duration.  `ctxTime` is the output audio
context's `currentTime` when the handler runs. -/
def handleAudio (s : AppState) (m : ServerMessage) (ctxTime : ℚ) : AppState :=
  match m.audioData with
  | some chunk =>
    let start := max s.nextStartTime ctxTime
    { s with
      nextStartTime := start + chunk.duration
      sources := s.sources ++ [⟨s.nextSourceId, start, chunk.duration⟩]
      nextSourceId := s.nextSourceId + 1 }
  | none => s

/-- `onmessage` step 5: on `interrupted`, call `stop()` on every source in the
active set, clear the set, and reset the cursor to zero. -/
def handleInterrupted (s : AppState) (m : ServerMessage) : AppState :=
  if m.interrupted then
    { s with
      stopped := s.stopped ++ s.sources.map SourceNode.id
      sources := []
      nextStartTime := 0 }
  else s

/-- The full `onmessage` callback: the five field inspections in source
order. -/
def onmessage (s : AppState) (m : ServerMessage) (ctxTime : ℚ) : AppState :=
  handleInterrupted
    (handleAudio (handleTurnComplete (handleOutputTrans (handleInputTrans s m) m) m) m ctxTime) m

/-- `stopAll`: clear the frame timer, drop the session, stop and clear all
playback sources, return to idle, and clear the alert flag. -/
def stopAll (s : AppState) : AppState :=
  let s1 :=
    match s.frameInterval with
    | some _ => { s with frameInterval := none }
    | none => s
  let s2 := { s1 with session := false }
  { s2 with
    stopped := s2.stopped ++ s2.sources.map SourceNode.id
    sources := []
    status := AppStatus.IDLE
    safetyAlert := false }

/-- The `onerror` callback: set the fixed user-facing error string, then tear
everything down. -/
def onerror (s : AppState) : AppState :=
  stopAll { s with error := some "Connection error. Please try again." }

/-- The `onclose` callback: tear everything down. -/
def onclose (s : AppState) : AppState :=
  stopAll s

/-- The beginning of `startSession`: status becomes connecting, the previous
error is cleared. -/
def startSessionBegin (s : AppState) : AppState :=
  { s with status := AppStatus.CONNECTING, error := none }

/-- The `catch` branch of `startSession`: record `err.message ||
'Failed to start. Check permissions.'` (the default is used when the message
is falsy, i.e. empty) and return to idle. -/
def startSessionFail (s : AppState) (msg : String) : AppState :=
  { s with
    error := some (if msg = "" then "Failed to start. Check permissions." else msg)
    status := AppStatus.IDLE }

/-- The `onopen` callback: status becomes active and the capture-frame
interval timer is installed. -/
def onopen (s : AppState) (timerId : Nat) : AppState :=
  { s with status := AppStatus.ACTIVE, frameInterval := some timerId }

/-- `sessionRef.current = await sessionPromise` after a successful connect. -/
def sessionEstablished (s : AppState) : AppState :=
  { s with session := true }

/-- The `ended` listener of a source node: remove it from the active set. -/
def sourceEnded (s : AppState) (id : Nat) : AppState :=
  { s with sources := s.sources.filter (fun src => src.id ≠ id) }

/-- Advance wall-clock time to `t`: every pending alert timer with fire time
`≤ t` fires, each setting `safetyAlert := false`; fired timers are removed. -/
def advanceTo (s : AppState) (t : ℚ) : AppState :=
  let fired := s.alertTimers.filter (fun x => decide (x ≤ t))
  { s with
    now := t
    alertTimers := s.alertTimers.filter (fun x => decide (t < x))
    safetyAlert := if fired.isEmpty then s.safetyAlert else false }

/-- A remote message together with its arrival time and the output audio
clock reading at handling. -/
structure TimedMsg where
  time : ℚ
  ctxTime : ℚ
  msg : ServerMessage
deriving DecidableEq

/-- Handle one timed message: advance the clock, firing due timers, then run
`onmessage`. -/
def stepTimed (s : AppState) (e : TimedMsg) : AppState :=
  onmessage (advanceTo s e.time) e.msg e.ctxTime

/-- Handle a sequence of timed remote messages. -/
def runTimed (s : AppState) (es : List TimedMsg) : AppState :=
  es.foldl stepTimed s

/-- The accumulated input transcript after step 1 of `onmessage`. -/
def accInput (s : AppState) (m : ServerMessage) : String :=
  match m.inputTranscription with
  | some t => s.currentInputTrans ++ t
  | none => s.currentInputTrans

/-- The accumulated output transcript after step 2 of `onmessage`. -/
def accOutput (s : AppState) (m : ServerMessage) : String :=
  match m.outputTranscription with
  | some t => s.currentOutputTrans ++ t
  | none => s.currentOutputTrans

/-- Whether the message's output-transcription fragment matches a danger
keyword. -/
def fragMatches (m : ServerMessage) : Bool :=
  match m.outputTranscription with
  | some t => matchesDanger t
  | none => false

lemma handleInputTrans_eq (s : AppState) (m : ServerMessage) :
    handleInputTrans s m = { s with currentInputTrans := accInput s m } := by
  unfold handleInputTrans accInput
  cases m.inputTranscription <;> rfl

lemma handleOutputTrans_eq (s : AppState) (m : ServerMessage) :
    handleOutputTrans s m =
      { s with
        currentOutputTrans := accOutput s m
        safetyAlert := if fragMatches m then true else s.safetyAlert
        alertTimers :=
          if fragMatches m then s.alertTimers ++ [s.now + 3000] else s.alertTimers } := by
  unfold handleOutputTrans accOutput fragMatches
  cases m.outputTranscription with
  | none => simp
  | some t => by_cases h : matchesDanger t <;> simp [h]

lemma onmessage_transcriptions (s : AppState) (m : ServerMessage) (c : ℚ) :
    (onmessage s m c).transcriptions =
      if m.turnComplete then
        sliceLast10 (s.transcriptions ++
          [⟨Role.user, accInput s m⟩, ⟨Role.assistant, accOutput s m⟩])
      else s.transcriptions := by
  unfold onmessage handleTurnComplete
  rw [handleInputTrans_eq, handleOutputTrans_eq]
  unfold handleInterrupted handleAudio
  cases ht : m.turnComplete <;> cases haud : m.audioData <;>
    cases hint : m.interrupted <;> simp [ht, haud, hint, accInput, accOutput]

lemma onmessage_currentInputTrans (s : AppState) (m : ServerMessage) (c : ℚ) :
    (onmessage s m c).currentInputTrans =
      if m.turnComplete then "" else accInput s m := by
  unfold onmessage handleTurnComplete
  rw [handleInputTrans_eq, handleOutputTrans_eq]
  unfold handleInterrupted handleAudio
  cases ht : m.turnComplete <;> cases haud : m.audioData <;>
    cases hint : m.interrupted <;> simp [ht, haud, hint]

lemma onmessage_currentOutputTrans (s : AppState) (m : ServerMessage) (c : ℚ) :
    (onmessage s m c).currentOutputTrans =
      if m.turnComplete then "" else accOutput s m := by
  unfold onmessage handleTurnComplete
  rw [handleInputTrans_eq, handleOutputTrans_eq]
  unfold handleInterrupted handleAudio
  cases ht : m.turnComplete <;> cases haud : m.audioData <;>
    cases hint : m.interrupted <;> simp [ht, haud, hint, accInput, accOutput]

lemma onmessage_status (s : AppState) (m : ServerMessage) (c : ℚ) :
    (onmessage s m c).status = s.status := by
  unfold onmessage handleTurnComplete
  rw [handleInputTrans_eq, handleOutputTrans_eq]
  unfold handleInterrupted handleAudio
  cases ht : m.turnComplete <;> cases haud : m.audioData <;>
    cases hint : m.interrupted <;> simp [ht, haud, hint]

lemma onmessage_safetyAlert (s : AppState) (m : ServerMessage) (c : ℚ) :
    (onmessage s m c).safetyAlert =
      if fragMatches m then true else s.safetyAlert := by
  unfold onmessage handleTurnComplete
  rw [handleInputTrans_eq, handleOutputTrans_eq]
  unfold handleInterrupted handleAudio
  cases ht : m.turnComplete <;> cases haud : m.audioData <;>
    cases hint : m.interrupted <;> simp [ht, haud, hint]

lemma onmessage_alertTimers (s : AppState) (m : ServerMessage) (c : ℚ) :
    (onmessage s m c).alertTimers =
      if fragMatches m then s.alertTimers ++ [s.now + 3000] else s.alertTimers := by
  unfold onmessage handleTurnComplete
  rw [handleInputTrans_eq, handleOutputTrans_eq]
  unfold handleInterrupted handleAudio
  cases ht : m.turnComplete <;> cases haud : m.audioData <;>
    cases hint : m.interrupted <;> simp [ht, haud, hint]

lemma onmessage_now (s : AppState) (m : ServerMessage) (c : ℚ) :
    (onmessage s m c).now = s.now := by
  unfold onmessage handleTurnComplete
  rw [handleInputTrans_eq, handleOutputTrans_eq]
  unfold handleInterrupted handleAudio
  cases ht : m.turnComplete <;> cases haud : m.audioData <;>
    cases hint : m.interrupted <;> simp [ht, haud, hint]

lemma sliceLast10_length_le {α : Type} (l : List α) : (sliceLast10 l).length ≤ 10 := by
  simp only [sliceLast10, List.length_drop]
  omega

lemma onmessage_transcriptions_length_le (s : AppState) (m : ServerMessage) (c : ℚ)
    (h : s.transcriptions.length ≤ 10) :
    (onmessage s m c).transcriptions.length ≤ 10 := by
  rw [onmessage_transcriptions]
  split
  · exact sliceLast10_length_le _
  · exact h

lemma advanceTo_transcriptions (s : AppState) (t : ℚ) :
    (advanceTo s t).transcriptions = s.transcriptions := rfl

lemma runTimed_transcriptions_length_le (es : List TimedMsg) :
    ∀ s : AppState, s.transcriptions.length ≤ 10 →
      (runTimed s es).transcriptions.length ≤ 10 := by
  induction es with
  | nil => intro s h; exact h
  | cons e es ih =>
    intro s h
    exact ih _ (onmessage_transcriptions_length_le _ _ _
      (by rw [advanceTo_transcriptions]; exact h))

/-- C1: over every sequence of remote messages the visible transcript history
holds at most 10 entries, and a turn-complete append keeps only the most
recent entries: the new history is the appended list with exactly its oldest
`length + 2 - 10` entries dropped from the front. -/
theorem c1_history_bounded_fifo :
    (∀ es : List TimedMsg, (runTimed initState es).transcriptions.length ≤ 10) ∧
    (∀ (s : AppState) (m : ServerMessage) (c : ℚ), m.turnComplete = true →
      (onmessage s m c).transcriptions =
        (s.transcriptions ++
          [(⟨Role.user, accInput s m⟩ : TranscriptionEntry),
           ⟨Role.assistant, accOutput s m⟩]).drop
          (s.transcriptions.length + 2 - 10)) := by
  constructor
  · intro es
    exact runTimed_transcriptions_length_le es initState (by simp [initState])
  · intro s m c h
    rw [onmessage_transcriptions, if_pos h]
    have hlen : (s.transcriptions ++
        [(⟨Role.user, accInput s m⟩ : TranscriptionEntry),
         ⟨Role.assistant, accOutput s m⟩]).length = s.transcriptions.length + 2 := by
      simp
    simp only [sliceLast10, hlen]

/-- Witness for C1 at a concrete input: a single turn-complete message from
the initial state. -/
theorem c1_history_bounded_fifo_witness :
    (runTimed initState []).transcriptions.length ≤ 10 ∧
    (onmessage initState ⟨none, none, true, none, false⟩ 0).transcriptions =
      ((initState.transcriptions ++
        [(⟨Role.user, accInput initState ⟨none, none, true, none, false⟩⟩ : TranscriptionEntry),
         ⟨Role.assistant, accOutput initState ⟨none, none, true, none, false⟩⟩]).drop
        (initState.transcriptions.length + 2 - 10)) :=
  ⟨c1_history_bounded_fifo.1 [],
   c1_history_bounded_fifo.2 initState ⟨none, none, true, none, false⟩ 0 rfl⟩

/-- C2: a turn-complete message appends exactly the pair
(user, accumulated input) then (assistant, accumulated output) — through the
`slice(-10)` cap, and literally whenever the history held at most 8 entries —
and resets both accumulators to the empty string. -/
theorem c2_turn_complete_appends_pair (s : AppState) (m : ServerMessage) (c : ℚ)
    (h : m.turnComplete = true) :
    (onmessage s m c).transcriptions =
      sliceLast10 (s.transcriptions ++
        [⟨Role.user, accInput s m⟩, ⟨Role.assistant, accOutput s m⟩]) ∧
    (s.transcriptions.length ≤ 8 →
      (onmessage s m c).transcriptions =
        s.transcriptions ++
          [⟨Role.user, accInput s m⟩, ⟨Role.assistant, accOutput s m⟩]) ∧
    (onmessage s m c).currentInputTrans = "" ∧
    (onmessage s m c).currentOutputTrans = "" := by
  refine ⟨?_, ?_, ?_, ?_⟩
  · rw [onmessage_transcriptions, if_pos h]
  · intro hlen
    rw [onmessage_transcriptions, if_pos h]
    have h0 : (s.transcriptions ++
        [(⟨Role.user, accInput s m⟩ : TranscriptionEntry),
         ⟨Role.assistant, accOutput s m⟩]).length - 10 = 0 := by
      simp only [List.length_append, List.length_cons, List.length_nil]
      omega
    rw [sliceLast10, h0, List.drop_zero]
  · rw [onmessage_currentInputTrans, if_pos h]
  · rw [onmessage_currentOutputTrans, if_pos h]

/-- Witness for C2: a turn-complete message with both accumulators empty
appends the pair of empty entries. -/
theorem c2_turn_complete_appends_pair_witness :
    (onmessage initState ⟨none, none, true, none, false⟩ 0).transcriptions =
      sliceLast10 (initState.transcriptions ++
        [⟨Role.user, accInput initState ⟨none, none, true, none, false⟩⟩,
         ⟨Role.assistant, accOutput initState ⟨none, none, true, none, false⟩⟩]) ∧
    (initState.transcriptions.length ≤ 8 →
      (onmessage initState ⟨none, none, true, none, false⟩ 0).transcriptions =
        initState.transcriptions ++
          [⟨Role.user, accInput initState ⟨none, none, true, none, false⟩⟩,
           ⟨Role.assistant, accOutput initState ⟨none, none, true, none, false⟩⟩]) ∧
    (onmessage initState ⟨none, none, true, none, false⟩ 0).currentInputTrans = "" ∧
    (onmessage initState ⟨none, none, true, none, false⟩ 0).currentOutputTrans = "" :=
  c2_turn_complete_appends_pair initState ⟨none, none, true, none, false⟩ 0 rfl

lemma onmessage_sources_audio (s : AppState) (m : ServerMessage) (c : ℚ)
    (chunk : AudioChunk) (haud : m.audioData = some chunk)
    (hint : m.interrupted = false) :
    (onmessage s m c).sources =
      s.sources ++ [⟨s.nextSourceId, max s.nextStartTime c, chunk.duration⟩] := by
  unfold onmessage handleTurnComplete
  rw [handleInputTrans_eq, handleOutputTrans_eq]
  unfold handleInterrupted handleAudio
  cases ht : m.turnComplete <;> simp [ht, haud, hint]

lemma onmessage_nextStartTime_audio (s : AppState) (m : ServerMessage) (c : ℚ)
    (chunk : AudioChunk) (haud : m.audioData = some chunk)
    (hint : m.interrupted = false) :
    (onmessage s m c).nextStartTime = max s.nextStartTime c + chunk.duration := by
  unfold onmessage handleTurnComplete
  rw [handleInputTrans_eq, handleOutputTrans_eq]
  unfold handleInterrupted handleAudio
  cases ht : m.turnComplete <;> simp [ht, haud, hint]

/-- C3: an audio chunk (with no interruption in the same message) is scheduled
to start at `max(cursor, output clock)`; the cursor then equals that start
plus the chunk's duration, so for a nonnegative duration the cursor never
decreases, and whenever the clock has not overtaken the cursor the start time
equals the prior cursor value (contiguous, non-overlapping playback). -/
theorem c3_audio_cursor_scheduling (s : AppState) (m : ServerMessage) (c : ℚ)
    (chunk : AudioChunk) (haud : m.audioData = some chunk)
    (hint : m.interrupted = false) :
    (onmessage s m c).sources =
      s.sources ++ [⟨s.nextSourceId, max s.nextStartTime c, chunk.duration⟩] ∧
    (onmessage s m c).nextStartTime = max s.nextStartTime c + chunk.duration ∧
    (0 ≤ chunk.duration → s.nextStartTime ≤ (onmessage s m c).nextStartTime) ∧
    (c ≤ s.nextStartTime → max s.nextStartTime c = s.nextStartTime) ∧
    (∀ (m2 : ServerMessage) (chunk2 : AudioChunk) (c2 : ℚ),
      m2.audioData = some chunk2 → m2.interrupted = false →
      ∃ src2 : SourceNode,
        (onmessage (onmessage s m c) m2 c2).sources =
          (onmessage s m c).sources ++ [src2] ∧
        max s.nextStartTime c + chunk.duration ≤ src2.start) := by
  refine ⟨onmessage_sources_audio s m c chunk haud hint,
          onmessage_nextStartTime_audio s m c chunk haud hint, ?_, ?_, ?_⟩
  · intro hd
    rw [onmessage_nextStartTime_audio s m c chunk haud hint]
    calc s.nextStartTime ≤ max s.nextStartTime c := le_max_left _ _
    _ ≤ max s.nextStartTime c + chunk.duration := le_add_of_nonneg_right hd
  · intro hc
    exact max_eq_left hc
  · intro m2 chunk2 c2 haud2 hint2
    refine ⟨⟨(onmessage s m c).nextSourceId,
      max (onmessage s m c).nextStartTime c2, chunk2.duration⟩,
      onmessage_sources_audio _ m2 c2 chunk2 haud2 hint2, ?_⟩
    rw [onmessage_nextStartTime_audio s m c chunk haud hint]
    exact le_max_left _ _

/-- Witness for C3: a 2-unit chunk arriving at clock time 5 from the initial
state. -/
theorem c3_audio_cursor_scheduling_witness :
    (onmessage initState ⟨none, none, false, some ⟨2⟩, false⟩ 5).sources =
      initState.sources ++
        [⟨initState.nextSourceId, max initState.nextStartTime 5,
          (⟨2⟩ : AudioChunk).duration⟩] ∧
    (onmessage initState ⟨none, none, false, some ⟨2⟩, false⟩ 5).nextStartTime =
      max initState.nextStartTime 5 + (⟨2⟩ : AudioChunk).duration ∧
    (0 ≤ (⟨2⟩ : AudioChunk).duration →
      initState.nextStartTime ≤
        (onmessage initState ⟨none, none, false, some ⟨2⟩, false⟩ 5).nextStartTime) ∧
    ((5 : ℚ) ≤ initState.nextStartTime →
      max initState.nextStartTime 5 = initState.nextStartTime) ∧
    (∀ (m2 : ServerMessage) (chunk2 : AudioChunk) (c2 : ℚ),
      m2.audioData = some chunk2 → m2.interrupted = false →
      ∃ src2 : SourceNode,
        (onmessage (onmessage initState ⟨none, none, false, some ⟨2⟩, false⟩ 5)
            m2 c2).sources =
          (onmessage initState ⟨none, none, false, some ⟨2⟩, false⟩ 5).sources
            ++ [src2] ∧
        max initState.nextStartTime 5 + (⟨2⟩ : AudioChunk).duration ≤ src2.start) :=
  c3_audio_cursor_scheduling initState ⟨none, none, false, some ⟨2⟩, false⟩ 5 ⟨2⟩ rfl rfl

/-- The sources newly scheduled by the audio branch of `onmessage`. -/
def audioAdded (s : AppState) (m : ServerMessage) (c : ℚ) : List SourceNode :=
  match m.audioData with
  | some chunk => [⟨s.nextSourceId, max s.nextStartTime c, chunk.duration⟩]
  | none => []

lemma onmessage_interrupted_eq (s : AppState) (m : ServerMessage) (c : ℚ)
    (hint : m.interrupted = true) :
    (onmessage s m c).sources = [] ∧
    (onmessage s m c).nextStartTime = 0 ∧
    (onmessage s m c).stopped =
      s.stopped ++ (s.sources ++ audioAdded s m c).map SourceNode.id := by
  unfold onmessage handleTurnComplete audioAdded
  rw [handleInputTrans_eq, handleOutputTrans_eq]
  unfold handleInterrupted handleAudio
  cases ht : m.turnComplete <;> cases haud : m.audioData <;>
    simp [ht, haud, hint]

/-- C4: a message carrying the interruption marker leaves the active-playback
set empty, resets the scheduling cursor to zero, and every source that was in
the active set has been stopped. -/
theorem c4_interruption_resets (s : AppState) (m : ServerMessage) (c : ℚ)
    (hint : m.interrupted = true) :
    (onmessage s m c).sources = [] ∧
    (onmessage s m c).nextStartTime = 0 ∧
    ∀ src ∈ s.sources, src.id ∈ (onmessage s m c).stopped := by
  obtain ⟨h1, h2, h3⟩ := onmessage_interrupted_eq s m c hint
  refine ⟨h1, h2, ?_⟩
  intro src hsrc
  rw [h3]
  simp only [List.mem_append, List.mem_map]
  exact Or.inr ⟨src, Or.inl hsrc, rfl⟩

/-- Witness for C4: an interruption arriving while one source (id 5) is
active. -/
theorem c4_interruption_resets_witness :
    (onmessage { initState with sources := [⟨5, 0, 1⟩] }
        ⟨none, none, false, none, true⟩ 0).sources = [] ∧
    (onmessage { initState with sources := [⟨5, 0, 1⟩] }
        ⟨none, none, false, none, true⟩ 0).nextStartTime = 0 ∧
    ∀ src ∈ ({ initState with sources := [⟨5, 0, 1⟩] } : AppState).sources,
      src.id ∈ (onmessage { initState with sources := [⟨5, 0, 1⟩] }
        ⟨none, none, false, none, true⟩ 0).stopped :=
  c4_interruption_resets { initState with sources := [⟨5, 0, 1⟩] }
    ⟨none, none, false, none, true⟩ 0 rfl

lemma stopAll_eq (s : AppState) :
    stopAll s =
      { s with
        frameInterval := none
        session := false
        stopped := s.stopped ++ s.sources.map SourceNode.id
        sources := []
        status := AppStatus.IDLE
        safetyAlert := false } := by
  unfold stopAll
  cases h : s.frameInterval <;> simp [h]

/-- C6: the teardown path (manual stop, remote close, remote error) clears
the frame timer, stops and empties the active-playback set, clears the
safety alert, and returns to idle; and `stopAll` is idempotent. -/
theorem c6_stopall_teardown_idempotent (s : AppState) :
    (stopAll s).frameInterval = none ∧
    (stopAll s).sources = [] ∧
    (∀ src ∈ s.sources, src.id ∈ (stopAll s).stopped) ∧
    (stopAll s).safetyAlert = false ∧
    (stopAll s).status = AppStatus.IDLE ∧
    onclose s = stopAll s ∧
    (onerror s).frameInterval = none ∧
    (onerror s).sources = [] ∧
    (onerror s).safetyAlert = false ∧
    (onerror s).status = AppStatus.IDLE ∧
    stopAll (stopAll s) = stopAll s := by
  refine ⟨?_, ?_, ?_, ?_, ?_, rfl, ?_, ?_, ?_, ?_, ?_⟩ <;>
    simp only [onerror, stopAll_eq] <;> try rfl
  · intro src hsrc
    simp only [List.mem_append, List.mem_map]
    exact Or.inr ⟨src, hsrc, rfl⟩
  · simp

/-- A concrete active-session state: a running frame timer, one playing
source (id 3), and a raised alert. -/
def demoActive : AppState :=
  { initState with
    sources := [⟨3, 0, 1⟩]
    frameInterval := some 7
    safetyAlert := true
    status := AppStatus.ACTIVE }

/-- Witness for C6 at the concrete state `demoActive`. -/
theorem c6_stopall_teardown_idempotent_witness :
    (stopAll demoActive).frameInterval = none ∧
    (stopAll demoActive).sources = [] ∧
    (∀ src ∈ demoActive.sources, src.id ∈ (stopAll demoActive).stopped) ∧
    (stopAll demoActive).safetyAlert = false ∧
    (stopAll demoActive).status = AppStatus.IDLE ∧
    onclose demoActive = stopAll demoActive ∧
    (onerror demoActive).frameInterval = none ∧
    (onerror demoActive).sources = [] ∧
    (onerror demoActive).safetyAlert = false ∧
    (onerror demoActive).status = AppStatus.IDLE ∧
    stopAll (stopAll demoActive) = stopAll demoActive :=
  c6_stopall_teardown_idempotent demoActive

/-- C8: `stopAll` leaves the transcript history and the scheduling cursor
untouched: stopping a session clears neither the displayed transcript nor
the playback cursor. -/
theorem c8_stopall_preserves_history_and_cursor (s : AppState) :
    (stopAll s).transcriptions = s.transcriptions ∧
    (stopAll s).nextStartTime = s.nextStartTime := by
  rw [stopAll_eq]
  exact ⟨rfl, rfl⟩

/-- C7: a failed session start records a single non-empty human-readable
error string and leaves status idle; a remote-reported stream error does the
same through the teardown path.  Neither transition re-attempts a
connection. -/
theorem c7_errors_set_message_and_idle (s : AppState) (msg : String) :
    (∃ e, (startSessionFail s msg).error = some e ∧ e ≠ "") ∧
    (startSessionFail s msg).status = AppStatus.IDLE ∧
    (∃ e, (onerror s).error = some e ∧ e ≠ "") ∧
    (onerror s).status = AppStatus.IDLE := by
  refine ⟨?_, rfl, ?_, ?_⟩
  · by_cases h : msg = ""
    · exact ⟨"Failed to start. Check permissions.", by simp [startSessionFail, h], by decide⟩
    · exact ⟨msg, by simp [startSessionFail, h], h⟩
  · refine ⟨"Connection error. Please try again.", ?_, by decide⟩
    simp [onerror, stopAll_eq]
  · simp [onerror, stopAll_eq]

/-- A user-interface or remote event, as dispatched by the component's
callbacks and handlers. -/
inductive Action where
  | startBegin : Action
  | startFail : String → Action
  | opened : Nat → Action
  | established : Action
  | message : ServerMessage → ℚ → Action
  | stopClick : Action
  | remoteError : Action
  | remoteClose : Action
  | ended : Nat → Action
  | advance : ℚ → Action

/-- Dispatch one event to its handler. -/
def applyAction (s : AppState) : Action → AppState
  | Action.startBegin => startSessionBegin s
  | Action.startFail msg => startSessionFail s msg
  | Action.opened tid => onopen s tid
  | Action.established => sessionEstablished s
  | Action.message m c => onmessage s m c
  | Action.stopClick => stopAll s
  | Action.remoteError => onerror s
  | Action.remoteClose => onclose s
  | Action.ended id => sourceEnded s id
  | Action.advance t => advanceTo s t

/-- Run a sequence of events from a state. -/
def runActions (s : AppState) (as : List Action) : AppState :=
  as.foldl applyAction s

/-- The three status values ever assigned by the code. -/
def statusOk (s : AppState) : Prop :=
  s.status = AppStatus.IDLE ∨ s.status = AppStatus.CONNECTING ∨
    s.status = AppStatus.ACTIVE

lemma applyAction_statusOk (s : AppState) (a : Action) (h : statusOk s) :
    statusOk (applyAction s a) := by
  cases a with
  | startBegin => exact Or.inr (Or.inl rfl)
  | startFail msg => exact Or.inl rfl
  | opened tid => exact Or.inr (Or.inr rfl)
  | established => exact h
  | message m c =>
    unfold statusOk at h ⊢
    rw [applyAction, onmessage_status]
    exact h
  | stopClick => exact Or.inl (by rw [applyAction, stopAll_eq])
  | remoteError => exact Or.inl (by simp [applyAction, onerror, stopAll_eq])
  | remoteClose => exact Or.inl (by simp [applyAction, onclose, stopAll_eq])
  | ended id => exact h
  | advance t => exact h

/-- C9: along every event sequence from the initial state the status is one
of idle, connecting, or active — the declared `ERROR` value is never
assigned. -/
theorem c9_status_error_unreachable (as : List Action) :
    (runActions initState as).status = AppStatus.IDLE ∨
    (runActions initState as).status = AppStatus.CONNECTING ∨
    (runActions initState as).status = AppStatus.ACTIVE := by
  suffices h : ∀ s, statusOk s → statusOk (runActions s as) from
    h initState (Or.inl rfl)
  induction as with
  | nil => intro s h; exact h
  | cons a as ih => intro s h; exact ih _ (applyAction_statusOk s a h)

lemma advanceTo_alertTimers_mem (s : AppState) (t x : ℚ)
    (hx : x ∈ s.alertTimers) (h : t < x) :
    x ∈ (advanceTo s t).alertTimers := by
  simp only [advanceTo, List.mem_filter, decide_eq_true_eq]
  exact ⟨hx, h⟩

lemma onmessage_alertTimers_mem (s : AppState) (m : ServerMessage) (c : ℚ)
    (x : ℚ) (hx : x ∈ s.alertTimers) :
    x ∈ (onmessage s m c).alertTimers := by
  rw [onmessage_alertTimers]
  split
  · exact List.mem_append_left _ hx
  · exact hx

lemma runTimed_alertTimers_mem (es : List TimedMsg) :
    ∀ (s : AppState) (x : ℚ), x ∈ s.alertTimers → (∀ e ∈ es, e.time < x) →
      x ∈ (runTimed s es).alertTimers := by
  induction es with
  | nil => intro s x hx _; exact hx
  | cons e es ih =>
    intro s x hx hes
    exact ih _ x
      (onmessage_alertTimers_mem _ _ _ x
        (advanceTo_alertTimers_mem s e.time x hx (hes e (List.mem_cons_self e es))))
      (fun e' he' => hes e' (List.mem_cons_of_mem e he'))

lemma advanceTo_fires (s : AppState) (t x : ℚ)
    (hx : x ∈ s.alertTimers) (hle : x ≤ t) :
    (advanceTo s t).safetyAlert = false := by
  have hmem : x ∈ s.alertTimers.filter (fun y => decide (y ≤ t)) := by
    simp only [List.mem_filter, decide_eq_true_eq]
    exact ⟨hx, hle⟩
  have hne : (s.alertTimers.filter (fun y => decide (y ≤ t))).isEmpty = false := by
    rw [List.isEmpty_eq_false_iff_exists_mem]
    exact ⟨x, hmem⟩
  simp [advanceTo, hne]

/-- C5: a danger-keyword match in an incremental assistant fragment raises
the safety alert immediately, and the alert is down again once 3000 ms have
elapsed since that match — whatever further messages (including further
matches) arrive strictly within the window. -/
theorem c5_safety_alert_window (s : AppState) (m : ServerMessage) (txt : String)
    (t c v : ℚ) (es : List TimedMsg)
    (hout : m.outputTranscription = some txt)
    (hmatch : matchesDanger txt = true)
    (hes : ∀ e ∈ es, e.time < t + 3000)
    (hv : t + 3000 ≤ v) :
    (stepTimed s ⟨t, c, m⟩).safetyAlert = true ∧
    (advanceTo (runTimed (stepTimed s ⟨t, c, m⟩) es) v).safetyAlert = false := by
  have hfrag : fragMatches m = true := by
    unfold fragMatches
    rw [hout]
    exact hmatch
  constructor
  · unfold stepTimed
    rw [onmessage_safetyAlert, if_pos hfrag]
  · have htimer : t + 3000 ∈ (stepTimed s ⟨t, c, m⟩).alertTimers := by
      unfold stepTimed
      rw [onmessage_alertTimers, if_pos hfrag]
      have hnow : (advanceTo s t).now = t := rfl
      rw [hnow]
      exact List.mem_append_right _ (List.mem_singleton.mpr rfl)
    exact advanceTo_fires _ v (t + 3000)
      (runTimed_alertTimers_mem es _ (t + 3000) htimer hes) hv

/-- Witness for C5: the fragment "危险" at time 0, a further matching
fragment at time 1000 inside the window, checked at time 3000. -/
theorem c5_safety_alert_window_witness :
    (stepTimed initState ⟨0, 0, ⟨none, some "危险", false, none, false⟩⟩).safetyAlert
      = true ∧
    (advanceTo
      (runTimed (stepTimed initState ⟨0, 0, ⟨none, some "危险", false, none, false⟩⟩)
        [⟨1000, 0, ⟨none, some "警告", false, none, false⟩⟩])
      3000).safetyAlert = false :=
  c5_safety_alert_window initState ⟨none, some "危险", false, none, false⟩ "危险"
    0 0 3000 [⟨1000, 0, ⟨none, some "警告", false, none, false⟩⟩]
    rfl (by decide)
    (by
      intro e he
      rw [List.mem_singleton] at he
      subst he
      norm_num)
    (by norm_num)

/-- C10: the keyword scan looks only at the current fragment: splitting
"danger" into the fragments "dan" and "ger" never raises the alert and
registers no clear-timer, although the accumulated transcript (which does
contain the keyword, as the first conjunct shows) ends up holding
"danger". -/
theorem c10_scan_is_per_fragment :
    matchesDanger ("dan" ++ "ger") = true ∧
    (stepTimed initState ⟨0, 0, ⟨none, some "dan", false, none, false⟩⟩).safetyAlert
      = false ∧
    (runTimed initState
      [⟨0, 0, ⟨none, some "dan", false, none, false⟩⟩,
       ⟨1, 0, ⟨none, some "ger", false, none, false⟩⟩]).safetyAlert = false ∧
    (runTimed initState
      [⟨0, 0, ⟨none, some "dan", false, none, false⟩⟩,
       ⟨1, 0, ⟨none, some "ger", false, none, false⟩⟩]).alertTimers = [] ∧
    (runTimed initState
      [⟨0, 0, ⟨none, some "dan", false, none, false⟩⟩,
       ⟨1, 0, ⟨none, some "ger", false, none, false⟩⟩]).currentOutputTrans
      = "danger" := by
  refine ⟨by decide, ?_, ?_, ?_, ?_⟩ <;> decide

end VisionClaw
